import Mathlib

/-!
Verification development for the emdash workflow-lifecycle and review-orchestration
engine.  The definitions below are a shallow embedding of the TypeScript sources:

* `src/renderer/lib/kanbanStore.ts`        — status store and pending-review flag
* `src/renderer/hooks/useReviewAgent.ts`   — review auto-start gate (`canStartReview`)
* `src/renderer/components/kanban/KanbanBoard.tsx` — `markDone`, `handleDrop`, idle timer
* `src/renderer/lib/reviewRunner.ts`       — single-flight review pipeline
* `src/renderer/lib/workspaceProviderTabs.ts` — tab registry
* `src/renderer/lib/constants.ts`          — `autoStartReviewIfDone`

JavaScript objects used as string-keyed maps are embedded as association lists,
`localStorage.setItem` calls are counted explicitly where a claim is about writes,
and async control flow is embedded as explicit state-machine steps (the synchronous
prefix of `startReview` is one step, the settling of its work promise another).
-/

/-! ## Association-list helpers (JS objects used as string-keyed maps) -/

/-- Lookup in a string-keyed association list, i.e. `map[key]` on a JS object. -/
def lookupKey {α : Type} : List (String × α) → String → Option α
  | [], _ => none
  | (k, v) :: rest, k0 => if k = k0 then some v else lookupKey rest k0

/-- Overwrite-or-append, i.e. the JS spread `{ ...map, [key]: value }`:
an existing key keeps its position, a new key is appended. -/
def setKey {α : Type} : List (String × α) → String → α → List (String × α)
  | [], k, v => [(k, v)]
  | (k0, v0) :: rest, k, v =>
      if k0 = k then (k, v) :: rest else (k0, v0) :: setKey rest k v

/-- Key removal, i.e. the JS `delete map[key]`. -/
def removeKey {α : Type} (m : List (String × α)) (k : String) : List (String × α) :=
  m.filter (fun p => !(p.1 = k : Bool))

/-! ## Status store (`kanbanStore.ts`) -/

/-- The three kanban statuses.  The spec calls them not-started / active /
ready-for-review; the code stores the literals todo / in-progress / done. -/
inductive KanbanStatus where
  | todo
  | inProgress
  | done
deriving DecidableEq

/-- State of the kanban store module: the status cache, the pending-review cache,
and counters for the `localStorage.setItem` calls performed by `write` and
`writeReviewPending` (each call to those functions attempts exactly one
persisted write). -/
structure KanbanStore where
  statusMap : List (String × KanbanStatus)
  pendingMap : List (String × Bool)
  statusWrites : Nat
  pendingWrites : Nat
deriving DecidableEq

/-- The store before any write: empty caches, no persisted writes. -/
def KanbanStore.init : KanbanStore :=
  { statusMap := [], pendingMap := [], statusWrites := 0, pendingWrites := 0 }

/-- Embeds `getStatus`: `map[workspaceId] || 'todo'`. -/
def getStatus (st : KanbanStore) (workspaceId : String) : KanbanStatus :=
  (lookupKey st.statusMap workspaceId).getD .todo

/-- Embeds `setStatus`: builds `{ ...read(), [workspaceId]: status }` and calls
`write`, which unconditionally stores the map (one persisted write per call). -/
def setStatus (st : KanbanStore) (workspaceId : String) (status : KanbanStatus) :
    KanbanStore :=
  { st with
      statusMap := setKey st.statusMap workspaceId status
      statusWrites := st.statusWrites + 1 }

/-- Embeds `setReviewPending`: spreads the pending map, deletes the key when the
flag is cleared, and calls `writeReviewPending` (one persisted write per call). -/
def setReviewPending (st : KanbanStore) (workspaceId : String) (pending : Bool) :
    KanbanStore :=
  let m := setKey st.pendingMap workspaceId pending
  let m := if pending then m else removeKey m workspaceId
  { st with pendingMap := m, pendingWrites := st.pendingWrites + 1 }

/-- Embeds `isReviewPending`: `readReviewPending()[workspaceId] === true`. -/
def isReviewPending (st : KanbanStore) (workspaceId : String) : Bool :=
  (lookupKey st.pendingMap workspaceId).getD false

/-- Embeds `clearReviewPending`. -/
def clearReviewPending (st : KanbanStore) (workspaceId : String) : KanbanStore :=
  setReviewPending st workspaceId false

/-! ## Provider registry and tab registry data (`workspaceProviderTabs.ts`) -/

/-- Modelled from the spec: the provider registry module
(`@shared/providers/registry`, whose source is not among the provided files)
exposes `isValidProviderId`, membership in "a known registry of ids".  The id
list is the provider union type that appears in the repository's type
declarations (codex, claude, qwen, droid, gemini, cursor, copilot, amp,
opencode, charm, auggie, goose, kimi, kiro, rovo, cline, codebuff). -/
def validProviderIds : List String :=
  ["codex", "claude", "qwen", "droid", "gemini", "cursor", "copilot", "amp",
   "opencode", "charm", "auggie", "goose", "kimi", "kiro", "rovo", "cline",
   "codebuff"]

/-- Modelled from the spec: membership test in the known provider-id registry. -/
def isValidProviderId (p : String) : Bool :=
  validProviderIds.contains p

/-- Embeds `ProviderTab`.  The TypeScript `isReview?: boolean` field is
optional, so it is embedded as `Option Bool`; `none` is an absent field. -/
structure ProviderTab where
  id : String
  provider : String
  createdAt : Nat
  isReview : Option Bool
deriving DecidableEq

/-- Truthiness of the optional `isReview` field (`tab.isReview` in a boolean
position): an absent field is falsy. -/
def isRev (t : ProviderTab) : Bool :=
  t.isReview.getD false

/-- Embeds `WorkspaceProviderTabsState`. -/
structure TabsState where
  tabs : List ProviderTab
  activeId : Option String
deriving DecidableEq

/-! ## Review auto-start gate (`useReviewAgent.ts`, `canStartReview`) -/

/-- Embeds `canStartReview` exactly as written in `useReviewAgent`
(`MultiAgentWorkspace.tsx` lines 835-851): review must be enabled, and the
number of non-review tabs parsed from the persisted tab state must be at most
one.  `stored = none` covers both an absent storage entry and a parse failure,
both of which return `true` in the source.  Note the function does not consult
the pending-review flag. -/
def canStartReviewCode (reviewEnabled : Bool) (stored : Option TabsState) : Bool :=
  if !reviewEnabled then false
  else
    match stored with
    | none => true
    | some st => decide ((st.tabs.filter (fun t => !(isRev t))).length ≤ 1)

/-- Modelled from the spec: the gate contract
`canStartReview(workspaceId) = reviewEnabled AND (isPendingReview(workspaceId)
OR countNonReviewSurfaces(workspaceId) <= 1)`, stated for comparison with the
embedding of the source (`canStartReviewCode`). -/
def canStartReviewSpec (reviewEnabled pending : Bool) (stored : Option TabsState) :
    Bool :=
  reviewEnabled &&
    (pending ||
      match stored with
      | none => true
      | some st => decide ((st.tabs.filter (fun t => !(isRev t))).length ≤ 1))

/-! ## Kanban board actions (`KanbanBoard.tsx`) -/

/-- The two fields of a workspace that the kanban board actions read. -/
structure Workspace where
  id : String
  path : String
deriving DecidableEq

/-- Combined state touched by the kanban board callbacks: the store module,
the component's `statusMap` React state, and the list of
`{workspaceId, workspacePath}` arguments passed to the review starter
(`reviewRunner.startReview` via `autoStartReviewIfDone`). -/
structure BoardState where
  store : KanbanStore
  statusMapUI : List (String × KanbanStatus)
  reviewStarts : List (String × String)
deriving DecidableEq

/-- Embeds `autoStartReviewIfDone` (`constants.ts`): for target `done` with a
workspace that has an id and a path, invoke the starter with
`{workspaceId, workspacePath}`; otherwise do nothing.  The starter invocation
is recorded; its promise is fire-and-forget in the source. -/
def autoStartReviewIfDone (bs : BoardState) (ws : Workspace) (target : KanbanStatus) :
    BoardState :=
  if !(target = .done : Bool) then bs
  else if ws.id = "" ∨ ws.path = "" then bs
  else { bs with reviewStarts := bs.reviewStarts ++ [(ws.id, ws.path)] }

/-- Embeds `markDone` (`KanbanBoard.tsx` lines 35-51): guard on id/path, update
the React `statusMap` (no-op when already `done`), always call
`setStatus(id, 'done')`, and invoke `autoStartReviewIfDone` when the status
changed.  The React state updater is applied synchronously (eager evaluation
of the single queued update). -/
def markDone (bs : BoardState) (ws : Workspace) : BoardState :=
  if ws.id = "" ∨ ws.path = "" then bs
  else
    let cur := (lookupKey bs.statusMapUI ws.id).getD .todo
    let changed := !(cur = .done : Bool)
    let ui := if cur = .done then bs.statusMapUI else setKey bs.statusMapUI ws.id .done
    let bs1 : BoardState :=
      { bs with statusMapUI := ui, store := setStatus bs.store ws.id .done }
    if changed then autoStartReviewIfDone bs1 ws .done else bs1

/-- Embeds `handleDrop` (`KanbanBoard.tsx` lines 274-282): a drop on the
`done` column of a known workspace goes through `markDone`; every other drop
writes the target status directly. -/
def handleDrop (bs : BoardState) (workspaces : List Workspace)
    (target : KanbanStatus) (workspaceId : String) : BoardState :=
  match workspaces.find? (fun w => w.id = workspaceId) with
  | some ws =>
      if target = .done then markDone bs ws
      else
        { bs with
            store := setStatus bs.store workspaceId target
            statusMapUI := setKey bs.statusMapUI workspaceId target }
  | none =>
      { bs with
          store := setStatus bs.store workspaceId target
          statusMapUI := setKey bs.statusMapUI workspaceId target }

/-! ## Idle-settle policy (`KanbanBoard.tsx` lines 53-98)

The board attaches, per workspace, a derived-status subscription (busy promotes
the status to `in-progress`) and an activity subscription that manages the
10-second grace timer: a busy signal clears any pending timer, an idle signal
replaces it with a fresh timer due 10000 ms later, and a firing timer moves an
`in-progress` workspace to `done` via `markDone`.  Time is explicit: the state
stores the absolute due time of the pending timer, and a run processes a
time-ordered list of `(time, isBusy)` signals followed by quiescence up to an
end time, firing the timer whenever its due time has been reached. -/

/-- Aggregator state: the board state plus the pending grace timer's absolute
due time (`none` when no timer is scheduled). -/
structure AggState where
  board : BoardState
  timer : Option Nat
deriving DecidableEq

/-- Embeds the busy branch of the derived-status subscription
(lines 66-73): promote to `in-progress` unless the React state already says
`in-progress` (in which case nothing is written). -/
def promoteBusy (bs : BoardState) (workspaceId : String) : BoardState :=
  let cur := lookupKey bs.statusMapUI workspaceId
  if cur = some .inProgress then bs
  else
    { bs with
        store := setStatus bs.store workspaceId .inProgress
        statusMapUI := setKey bs.statusMapUI workspaceId .inProgress }

/-- Fires the grace timer if its due time has been reached by `now`
(lines 88-95): the timer is consumed, and the workspace moves to `done` via
`markDone` only when `getStatus` still reports `in-progress`. -/
def fireDue (ws : Workspace) (st : AggState) (now : Nat) : AggState :=
  match st.timer with
  | none => st
  | some due =>
      if due ≤ now then
        if getStatus st.board.store ws.id = .inProgress then
          { board := markDone st.board ws, timer := none }
        else
          { board := st.board, timer := none }
      else st

/-- One activity signal (lines 77-96): any timer that came due strictly before
the signal fires first; then a busy signal promotes the workspace and clears
the timer, while an idle signal schedules a fresh timer due `now + 10000`. -/
def activitySignal (ws : Workspace) (st : AggState) (now : Nat) (isBusy : Bool) :
    AggState :=
  let st1 := fireDue ws st now
  if isBusy then { board := promoteBusy st1.board ws.id, timer := none }
  else { board := st1.board, timer := some (now + 10000) }

/-- Runs a time-ordered list of `(time, isBusy)` activity signals and then lets
time pass quietly until `tEnd`, firing any timer that comes due. -/
def runSignals (ws : Workspace) (st : AggState) :
    List (Nat × Bool) → Nat → AggState
  | [], tEnd => fireDue ws st tEnd
  | (t, b) :: rest, tEnd => runSignals ws (activitySignal ws st t b) rest tEnd

/-! ## Review pipeline (`reviewRunner.ts`) -/

/-- Embeds `ReviewStatus`. -/
inductive ReviewStatus where
  | idle
  | running
  | success
  | error
deriving DecidableEq

/-- Embeds one entry of `ReviewFile.diff.lines`. -/
structure DiffLine where
  left : Option String
  right : Option String
  type : String
deriving DecidableEq

/-- Embeds `ReviewFile.diff`. -/
structure Diff where
  lines : List DiffLine
deriving DecidableEq

/-- Embeds `ReviewFile`. -/
structure ReviewFile where
  path : String
  status : String
  additions : Nat
  deletions : Nat
  diff : Option Diff
deriving DecidableEq

/-- Embeds `ReviewState`. -/
structure ReviewState where
  status : ReviewStatus
  summary : String
  files : List ReviewFile
  startedAt : Nat
  finishedAt : Option Nat
  error : Option String
deriving DecidableEq

/-- Embeds one entry of the VCS-status collaborator's `changes` array. -/
structure GitChange where
  path : String
  status : String
  additions : Nat
  deletions : Nat
deriving DecidableEq

/-- Embeds the VCS-status collaborator's result
`{success, changes} | {success:false, error}`.  A thrown exception from the
collaborator is embedded as `success := false` with the exception message in
`error`, since the `catch` branch of the work closure treats both identically. -/
structure GitStatusResult where
  success : Bool
  error : Option String
  changes : List GitChange
deriving DecidableEq

/-- Boolean test that `pat` occurs at the start of `l`
(JS `String.prototype.startsWith` on character lists). -/
def startsList : List Char → List Char → Bool
  | [], _ => true
  | _ :: _, [] => false
  | a :: as, b :: bs => a == b && startsList as bs

/-- Embeds the change filter (line 122-125): drop paths under `.emdash/` and
the literal path `PLANNING.md`. -/
def filteredChanges (cs : List GitChange) : List GitChange :=
  cs.filter (fun c =>
    !(startsList ".emdash/".toList c.path.toList) && !(c.path = "PLANNING.md" : Bool))

/-- Embeds the per-change `ReviewFile` construction (lines 127-135).  The
per-file diff collaborator is the function `diffOf`; an individual diff
failure is `none` and is recorded as a file without a diff. -/
def buildFiles (diffOf : String → Option Diff) (cs : List GitChange) :
    List ReviewFile :=
  cs.map (fun c =>
    { path := c.path, status := c.status, additions := c.additions,
      deletions := c.deletions, diff := diffOf c.path })

/-- Embeds `files.reduce((sum, f) => sum + f.additions, 0)`. -/
def totalAdds (files : List ReviewFile) : Nat :=
  files.foldl (fun sum f => sum + f.additions) 0

/-- Embeds `files.reduce((sum, f) => sum + f.deletions, 0)`. -/
def totalDels (files : List ReviewFile) : Nat :=
  files.foldl (fun sum f => sum + f.deletions) 0

/-- Embeds the summary template (lines 139-142). -/
def summaryFor (files : List ReviewFile) : String :=
  if files.length > 0 then
    toString files.length ++ " file" ++ (if files.length = 1 then "" else "s") ++
      " changed (+" ++ toString (totalAdds files) ++ " / -" ++
      toString (totalDels files) ++ ")"
  else
    "No local changes to review."

/-- Embeds `res?.error || 'Unable to collect git status for review'`: an absent
or empty error message falls back to the default. -/
def gitErrorMessage (res : GitStatusResult) : String :=
  match res.error with
  | some e => if e = "" then "Unable to collect git status for review" else e
  | none => "Unable to collect git status for review"

/-- Embeds the work closure of `startReview` (lines 115-169) after the VCS
status result is available: on success, build the filtered file list and the
summary and finish in `success`; on failure (including a thrown collaborator),
finish in `error` carrying the failure message.  The closure never rejects:
both branches return a terminal `ReviewState`. -/
def runWork (diffOf : String → Option Diff) (startedAt finishedAt : Nat)
    (res : GitStatusResult) : ReviewState :=
  if res.success then
    let files := buildFiles diffOf (filteredChanges res.changes)
    { status := .success, summary := summaryFor files, files := files,
      startedAt := startedAt, finishedAt := some finishedAt, error := none }
  else
    { status := .error, summary := "", files := [], startedAt := startedAt,
      finishedAt := some finishedAt, error := some (gitErrorMessage res) }

/-- Module state of `reviewRunner.ts`: the `states` and `inflight` maps, a
fresh-promise counter (promise identity), and the number of invocations of the
VCS-status collaborator `getGitStatus`. -/
structure RunnerState where
  states : List (String × ReviewState)
  inflight : List (String × Nat)
  nextPromise : Nat
  gitStatusCalls : Nat
deriving DecidableEq

/-- The runner before any review: empty maps, no collaborator calls. -/
def RunnerState.init : RunnerState :=
  { states := [], inflight := [], nextPromise := 0, gitStatusCalls := 0 }

/-- What a `startReview` call hands back: an already-settled `ReviewState`
(the cached success, or a stale state) or the identity of an in-flight
promise. -/
inductive StartOutcome where
  | resolved (s : ReviewState)
  | promise (pid : Nat)
deriving DecidableEq

/-- The `running` placeholder state (lines 106-111). -/
def runningState (startedAt : Nat) : ReviewState :=
  { status := .running, summary := "Starting code review…", files := [],
    startedAt := startedAt, finishedAt := none, error := none }

/-- Embeds the synchronous prefix of `startReview` (lines 92-173), which runs
without interleaving up to the work closure's first `await`: an in-flight
promise is returned as-is; a cached `success` state is returned as-is; a stale
`running` state with no in-flight promise is returned as-is; otherwise a
`running` state is stored, the work closure starts (invoking the VCS-status
collaborator once, before suspending), and the fresh work promise is recorded
in `inflight` and returned. -/
def startReviewStep (st : RunnerState) (workspaceId : String) (startedAt : Nat) :
    RunnerState × StartOutcome :=
  match lookupKey st.inflight workspaceId with
  | some pid => (st, .promise pid)
  | none =>
      let fresh : RunnerState × StartOutcome :=
        ({ states := setKey st.states workspaceId (runningState startedAt),
           inflight := setKey st.inflight workspaceId st.nextPromise,
           nextPromise := st.nextPromise + 1,
           gitStatusCalls := st.gitStatusCalls + 1 },
         .promise st.nextPromise)
      match lookupKey st.states workspaceId with
      | some existing =>
          if existing.status = .success then (st, .resolved existing)
          else if existing.status = .running then (st, .resolved existing)
          else fresh
      | none => fresh

/-- Embeds the completion of the work promise: the terminal state computed by
`runWork` replaces the stored state (using the `startedAt` captured in the
stored `running` state) and the in-flight entry is deleted (`finally` block,
line 168). -/
def settleReview (st : RunnerState) (workspaceId : String)
    (diffOf : String → Option Diff) (finishedAt : Nat) (res : GitStatusResult) :
    RunnerState :=
  let startedAt :=
    match lookupKey st.states workspaceId with
    | some s => s.startedAt
    | none => 0
  { st with
      states := setKey st.states workspaceId (runWork diffOf startedAt finishedAt res)
      inflight := removeKey st.inflight workspaceId }

/-! ## Tab registry operations (`workspaceProviderTabs.ts`) -/

/-- Embeds `normalizeProvider`. -/
def normalizeProvider (provider fallback : String) : String :=
  if isValidProviderId provider then provider
  else if isValidProviderId fallback then fallback
  else "codex"

/-- The composite dedup key `provider + ':' + (isReview ? 'review' : 'normal')`,
embedded as the pair of its two components. -/
def tabKey (t : ProviderTab) : String × Bool :=
  (t.provider, isRev t)

/-- Embeds the validity-and-dedup filter pass of `updateWorkspaceState`
(lines 178-190): drop invalid providers, and keep only the first tab for each
composite key, threading the `seen` set. -/
def dedupeValidTabs (seen : List (String × Bool)) :
    List ProviderTab → List ProviderTab
  | [] => []
  | t :: ts =>
      if !isValidProviderId t.provider then dedupeValidTabs seen ts
      else if tabKey t ∈ seen then dedupeValidTabs seen ts
      else t :: dedupeValidTabs (tabKey t :: seen) ts

/-- Embeds the dedup pass of `loadFromStorage` (lines 92-99), which has no
validity filter: keep only the first tab for each composite key. -/
def dedupeLoadTabs (seen : List (String × Bool)) :
    List ProviderTab → List ProviderTab
  | [] => []
  | t :: ts =>
      if tabKey t ∈ seen then dedupeLoadTabs seen ts
      else t :: dedupeLoadTabs (tabKey t :: seen) ts

/-- Embeds `createDefaultState` (lines 123-138): a single fresh non-review tab
for the normalized fallback provider, which is also active. -/
def createDefaultState (fallback : String) (now : Nat) : TabsState :=
  let provider := normalizeProvider fallback "codex"
  { tabs := [{ id := provider, provider := provider, createdAt := now,
               isReview := none }],
    activeId := some provider }

/-- The commit step at the end of `updateWorkspaceState` (lines 192-205):
reset to the default state when no tab survived the filter, and repair
`activeId` (kept only when it names a surviving tab, else the first tab). -/
def commitTabs (fallback : String) (now : Nat) (draftActive : Option String) :
    List ProviderTab → TabsState
  | [] => createDefaultState fallback now
  | t0 :: rest =>
      let activeOk :=
        match draftActive with
        | none => false
        | some a => (t0 :: rest).any (fun t => t.id = a)
      if activeOk then { tabs := t0 :: rest, activeId := draftActive }
      else { tabs := t0 :: rest, activeId := some t0.id }

/-- Embeds `updateWorkspaceState` (lines 168-206): apply the mutation to a
draft, normalize every provider, run the validity-and-dedup filter, and commit
with `commitTabs`. -/
def updateWorkspaceState (fallback : String) (now : Nat) (st : TabsState)
    (mutate : TabsState → TabsState) : TabsState :=
  let draft := mutate st
  commitTabs fallback now draft.activeId
    (dedupeValidTabs []
      (draft.tabs.map (fun t =>
        { t with provider := normalizeProvider t.provider fallback })))

/-- Embeds `addTab` (lines 208-225), the `openProviderTab` action: no-op for an
invalid provider; otherwise activate the existing non-review tab of that
provider, or append a fresh one (id = provider) and activate it. -/
def addTab (st : TabsState) (provider fallback : String) (now : Nat) : TabsState :=
  if !isValidProviderId provider then st
  else
    updateWorkspaceState fallback now st (fun draft =>
      match draft.tabs.find? (fun t => t.provider = provider && !(isRev t)) with
      | some existing => { draft with activeId := some existing.id }
      | none =>
          let tab : ProviderTab :=
            { id := provider, provider := provider, createdAt := now,
              isReview := none }
          { tabs := draft.tabs ++ [tab], activeId := some tab.id })

/-- Embeds `addReviewTab` (lines 227-247), the `openReviewTab` action: no-op for
an invalid provider; otherwise activate the existing review tab of that
provider, or append a fresh review tab with id `provider ++ "-review"` and
activate it. -/
def addReviewTab (st : TabsState) (provider fallback : String) (now : Nat) :
    TabsState :=
  if !isValidProviderId provider then st
  else
    let reviewTabId := provider ++ "-review"
    updateWorkspaceState fallback now st (fun draft =>
      match draft.tabs.find? (fun t => isRev t && t.provider = provider) with
      | some existing => { draft with activeId := some existing.id }
      | none =>
          let tab : ProviderTab :=
            { id := reviewTabId, provider := provider, createdAt := now,
              isReview := some true }
          { tabs := draft.tabs ++ [tab], activeId := some tab.id })

/-- Embeds `getReviewTab` (lines 249-252): the first tab whose `isReview`
field is truthy, or none. -/
def getReviewTab (st : TabsState) : Option ProviderTab :=
  st.tabs.find? (fun t => isRev t)

/-- Embeds `closeTab` (lines 269-282): refuse to close the last tab or an
unknown id; otherwise remove the tab and, if it was active, move the active id
to the tab now at the same index, else the previous index, else the first
(indexing the filtered list, as the source does after reassigning
`draft.tabs`; for index 0 the JS `tabs[-1]` lookup is `undefined`, which the
saturating `idx - 1 = 0` reproduces because it falls through to `tabs[0]`). -/
def closeTab (st : TabsState) (tabId fallback : String) (now : Nat) : TabsState :=
  if st.tabs.length ≤ 1 then st
  else
    match st.tabs.findIdx? (fun t => t.id = tabId) with
    | none => st
    | some idx =>
        updateWorkspaceState fallback now st (fun draft =>
          let tabs := draft.tabs.filter (fun t => !(t.id = tabId : Bool))
          let active :=
            if draft.activeId = some tabId then
              match tabs.get? idx with
              | some t => some t.id
              | none =>
                  match tabs.get? (idx - 1) with
                  | some t => some t.id
                  | none =>
                      match tabs.get? 0 with
                      | some t => some t.id
                      | none => none
            else draft.activeId
          { tabs := tabs, activeId := active })

/-- Embeds `setActive` (lines 261-267). -/
def setActive (st : TabsState) (tabId fallback : String) (now : Nat) : TabsState :=
  updateWorkspaceState fallback now st (fun draft =>
    if draft.tabs.any (fun t => t.id = tabId) then
      { draft with activeId := some tabId }
    else draft)

/-- One call in a Tab Registry call sequence, as quantified by the registry
invariant claim: `openSurface` (`openProviderTab`), `openReviewSurface`
(`openReviewTab`) or `closeSurface` (`closeTab`). -/
inductive TabOp where
  | openSurface (provider : String)
  | openReviewSurface (provider : String)
  | closeSurface (tabId : String)
deriving DecidableEq

/-- Applies one registry call. -/
def applyTabOp (fallback : String) (now : Nat) (st : TabsState) :
    TabOp → TabsState
  | .openSurface p => addTab st p fallback now
  | .openReviewSurface p => addReviewTab st p fallback now
  | .closeSurface tabId => closeTab st tabId fallback now

/-- Applies a finite sequence of registry calls. -/
def applyTabOps (fallback : String) (now : Nat) (st : TabsState)
    (ops : List TabOp) : TabsState :=
  ops.foldl (applyTabOp fallback now) st

/-- The Tab Registry invariant of the claim: a non-empty collection, no two
tabs sharing the composite `(provider, isReview)` key, and an `activeId` that
refers to a member. -/
def tabsInvariant (st : TabsState) : Prop :=
  st.tabs ≠ [] ∧
  (st.tabs.map tabKey).Nodup ∧
  ∃ a, st.activeId = some a ∧ st.tabs.any (fun t => t.id = a) = true

/-! ## Rehydration (`loadFromStorage`, lines 65-112) -/

/-- A tab record as parsed from persisted JSON: every field may be absent or of
the wrong shape, so each is optional.  `isReview` is what was persisted
(`saveToStorage` serializes the whole tab, review flag included). -/
structure RawStoredTab where
  id : Option String
  provider : Option String
  createdAt : Option Nat
  isReview : Option Bool
deriving DecidableEq

/-- A persisted workspace tab state as parsed from JSON. -/
structure RawStoredState where
  tabs : Option (List RawStoredTab)
  activeId : Option String
deriving DecidableEq

/-- Whitespace trim on both ends, embedding JS `String.prototype.trim`. -/
def trimStr (s : String) : String :=
  String.mk
    (((s.toList.dropWhile Char.isWhitespace).reverse.dropWhile
        Char.isWhitespace).reverse)

/-- Embeds the per-item mapping of `loadFromStorage` (lines 76-89): normalize
the provider against the fixed fallback `'codex'`, derive the id from the
trimmed stored id or the provider, default `createdAt` to the current time —
and construct the tab WITHOUT an `isReview` field (the object literal at lines
80-87 has no such property, whatever was persisted). -/
def loadTab (now : Nat) (item : RawStoredTab) : Option ProviderTab :=
  let provider := normalizeProvider (item.provider.getD "") "codex"
  let id :=
    match item.id with
    | some s => if trimStr s = "" then provider else trimStr s
    | none => provider
  if !isValidProviderId provider then none
  else
    some { id := id, provider := provider, createdAt := item.createdAt.getD now,
           isReview := none }

/-- Embeds `loadFromStorage` (lines 65-112): `none` input covers an absent
entry, malformed JSON and a non-object value.  Parsed tabs are mapped through
`loadTab`, deduplicated by composite key, and rejected when empty; `activeId`
is kept only when it names a loaded tab, else the first tab is active. -/
def loadFromStorage (raw : Option RawStoredState) (now : Nat) :
    Option TabsState :=
  match raw with
  | none => none
  | some parsed =>
      let tabs :=
        match parsed.tabs with
        | some items => (items.map (loadTab now)).reduceOption
        | none => []
      match dedupeLoadTabs [] tabs with
      | [] => none
      | t0 :: rest =>
          let unique := t0 :: rest
          let active :=
            match parsed.activeId with
            | some a => if unique.any (fun t => t.id = a) then some a else some t0.id
            | none => some t0.id
          some { tabs := unique, activeId := active }

/-! ## Substring helper for summary claims -/

/-- Boolean substring test: `pat` occurs contiguously inside `s`
(JS `String.prototype.includes`). -/
def containsSub (s pat : String) : Bool :=
  (List.range (s.toList.length + 1)).any
    (fun i => startsList pat.toList (s.toList.drop i))

/-! ## Concrete inputs used by witnesses and counterexamples -/

/-- A persisted tab state with two open non-review surfaces. -/
def exampleTwoTabs : TabsState :=
  { tabs := [{ id := "codex", provider := "codex", createdAt := 1, isReview := none },
             { id := "claude", provider := "claude", createdAt := 2, isReview := none }],
    activeId := some "codex" }

/-- A persisted tab state with a single non-review surface. -/
def exampleOneTab : TabsState :=
  { tabs := [{ id := "claude", provider := "claude", createdAt := 1, isReview := none }],
    activeId := some "claude" }

/-- The board before any status write. -/
def exampleBoard : BoardState :=
  { store := KanbanStore.init, statusMapUI := [], reviewStarts := [] }

/-- A workspace with an id and a path. -/
def exampleWorkspace : Workspace :=
  { id := "ws-1", path := "/tmp/ws-1" }

/-- End-to-end scenario 1: two changed files, +5 minus 2 and +10 minus 0. -/
def scenarioTwoFiles : GitStatusResult :=
  { success := true, error := none,
    changes := [{ path := "src/index.ts", status := "M", additions := 5, deletions := 2 },
                { path := "README.md", status := "A", additions := 10, deletions := 0 }] }

/-- End-to-end scenario 2: an empty change set. -/
def scenarioEmpty : GitStatusResult :=
  { success := true, error := none, changes := [] }

/-- A per-file diff collaborator that succeeds for every path. -/
def scenarioDiff : String → Option Diff :=
  fun _ => some { lines := [{ left := some "", right := some "", type := "add" }] }

/-- A persisted tab state, as parsed from storage, that contains a review
surface (`isReview := some true` was persisted). -/
def exampleRawStored : RawStoredState :=
  { tabs := some
      [{ id := some "claude-review", provider := some "claude", createdAt := some 3,
         isReview := some true },
       { id := some "codex", provider := some "codex", createdAt := some 1,
         isReview := none }],
    activeId := some "codex" }

/-- The tab state `loadFromStorage` produces for `exampleRawStored`: both tabs
are restored, neither carries the review flag. -/
def exampleLoadedTabs : TabsState :=
  { tabs := [{ id := "claude-review", provider := "claude", createdAt := 3,
               isReview := none },
             { id := "codex", provider := "codex", createdAt := 1, isReview := none }],
    activeId := some "codex" }

/-- A terminal success state as cached by the runner. -/
def exampleSuccessState : ReviewState :=
  { status := .success, summary := "1 file changed (+1 / -0)",
    files := [{ path := "a.ts", status := "M", additions := 1, deletions := 0,
                diff := none }],
    startedAt := 10, finishedAt := some 20, error := none }

/-- A runner whose last computation for `ws-1` succeeded and which has no
in-flight work. -/
def exampleSuccessRunner : RunnerState :=
  { states := [("ws-1", exampleSuccessState)], inflight := [], nextPromise := 3,
    gitStatusCalls := 1 }

/-- A single review file used to instantiate the summary claims. -/
def exampleReviewFile : ReviewFile :=
  { path := "a.ts", status := "M", additions := 4, deletions := 7, diff := none }

/-! ## Helper lemmas about the association-list operations -/

theorem lookupKey_setKey_self {α : Type} (m : List (String × α)) (k : String) (v : α) :
    lookupKey (setKey m k v) k = some v := by
  induction m with
  | nil => simp [setKey, lookupKey]
  | cons p rest ih =>
      obtain ⟨k0, v0⟩ := p
      by_cases h : k0 = k
      · simp [setKey, h, lookupKey]
      · simp [setKey, h, lookupKey, ih]

theorem lookupKey_setKey_ne {α : Type} (m : List (String × α)) (k k0 : String) (v : α)
    (h : k ≠ k0) : lookupKey (setKey m k v) k0 = lookupKey m k0 := by
  induction m with
  | nil => simp [setKey, lookupKey, h]
  | cons p rest ih =>
      obtain ⟨k1, v1⟩ := p
      by_cases h1 : k1 = k
      · subst h1
        simp [setKey, lookupKey, h]
      · simp [setKey, h1, lookupKey, ih]

theorem lookupKey_removeKey_self {α : Type} (m : List (String × α)) (k : String) :
    lookupKey (removeKey m k) k = none := by
  induction m with
  | nil => simp [removeKey, lookupKey]
  | cons p rest ih =>
      obtain ⟨k0, v0⟩ := p
      by_cases h : k0 = k
      · simpa [removeKey, h] using ih
      · simpa [removeKey, List.filter, h, lookupKey] using ih

theorem setKey_setKey {α : Type} (m : List (String × α)) (k : String) (v w : α) :
    setKey (setKey m k v) k w = setKey m k w := by
  induction m with
  | nil => simp [setKey]
  | cons p rest ih =>
      obtain ⟨k0, v0⟩ := p
      by_cases h : k0 = k
      · simp [setKey, h]
      · simp [setKey, h, ih]

/-! ## C1 — Review Auto-Start Gate pending-flag bypass -/

/-- C1: the claim states `canStartReview = reviewEnabled AND (isPendingReview
OR countNonReviewSurfaces <= 1)`.  The source gate never consults the
pending-review flag: with review enabled, two open non-review surfaces and the
pending flag set, the source returns `false` while the claimed contract
returns `true`.  The remaining conjuncts check the two agreeing rows of the
claim's truth table (2 surfaces without the flag: false; 1 surface: true). -/
theorem canStartReview_ignores_pending_flag :
    canStartReviewCode true (some exampleTwoTabs) = false ∧
    canStartReviewSpec true true (some exampleTwoTabs) = true ∧
    canStartReviewSpec true false (some exampleTwoTabs) = false ∧
    canStartReviewCode true (some exampleOneTab) = true ∧
    canStartReviewSpec true false (some exampleOneTab) = true := by
  decide

/-! ## C2 — transitions into ready-for-review and the pending flag -/

/-- C2: the claim states that every transition into ready-for-review sets the
workspace's pending-review flag to true.  Evaluating the board's `markDone`
(the single funnel for the idle-settle, exit-settle, external-evidence and
drag paths into `done`) at a fresh workspace shows the transition happens
(status becomes `done`), the review starter is invoked asynchronously with
`{workspaceId, workspacePath}` — but the pending flag stays `false` and the
pending map is never even written; the drag path through `handleDrop` behaves
identically. -/
theorem markDone_leaves_pending_flag_clear :
    getStatus (markDone exampleBoard exampleWorkspace).store "ws-1" = .done ∧
    (markDone exampleBoard exampleWorkspace).reviewStarts = [("ws-1", "/tmp/ws-1")] ∧
    isReviewPending (markDone exampleBoard exampleWorkspace).store "ws-1" = false ∧
    (markDone exampleBoard exampleWorkspace).store.pendingWrites = 0 ∧
    isReviewPending
      (handleDrop exampleBoard [exampleWorkspace] .done "ws-1").store "ws-1" = false := by
  decide

/-! ## C5 — setStatus is not write-idempotent, but is content-idempotent -/

/-- C5 counterexample: calling `setStatus` twice with the same status performs
two persisted writes (`write` stores unconditionally on every call), not the
one write the claim states. -/
theorem setStatus_twice_two_writes :
    (setStatus (setStatus KanbanStore.init "ws-1" .done) "ws-1" .done).statusWrites
      ≠ 1 ∧
    (setStatus (setStatus KanbanStore.init "ws-1" .done) "ws-1" .done).statusWrites
      = 2 := by
  decide

/-- C5 amended: the second identical `setStatus` call performs one more
persisted write (two in total), but that write stores the identical status
map, so the durable status content after the second call equals the content
after the first; and neither call touches the pending-review flag map or
performs a pending-map write. -/
theorem setStatus_twice_amended (st : KanbanStore) (id : String) (s : KanbanStatus) :
    (setStatus (setStatus st id s) id s).statusMap = (setStatus st id s).statusMap ∧
    (setStatus (setStatus st id s) id s).pendingMap = st.pendingMap ∧
    (setStatus (setStatus st id s) id s).pendingWrites = st.pendingWrites ∧
    (setStatus (setStatus st id s) id s).statusWrites = st.statusWrites + 2 := by
  refine ⟨?_, rfl, rfl, rfl⟩
  simp [setStatus, setKey_setKey]

/-! ## Review pipeline lemmas (C3, C7, C8) -/

/-- Helper: the fresh path of `startReviewStep` taken when nothing is in
flight and no cached state blocks recomputation. -/
theorem startReviewStep_fresh (st : RunnerState) (id : String) (t : Nat)
    (hIn : lookupKey st.inflight id = none)
    (hOld : ∀ ex, lookupKey st.states id = some ex →
      ex.status ≠ .success ∧ ex.status ≠ .running) :
    startReviewStep st id t =
      ({ states := setKey st.states id (runningState t),
         inflight := setKey st.inflight id st.nextPromise,
         nextPromise := st.nextPromise + 1,
         gitStatusCalls := st.gitStatusCalls + 1 }, .promise st.nextPromise) := by
  rcases hst : lookupKey st.states id with _ | ex
  · simp [startReviewStep, hIn, hst]
  · obtain ⟨hs, hr⟩ := hOld ex hst
    simp [startReviewStep, hIn, hst, hs, hr]

/-- C3: single-flight per workspace id.  From a state with no in-flight
computation and no blocking cached state, a `startReview` call hands back the
fresh work promise; a second call for the same workspace, arriving while that
work is in flight, returns the very same promise and leaves the runner state
untouched — in particular, the VCS-status collaborator has been invoked
exactly once for the pair of calls. -/
theorem startReview_single_flight (st : RunnerState) (id : String) (t t' : Nat)
    (hIn : lookupKey st.inflight id = none)
    (hOld : ∀ ex, lookupKey st.states id = some ex →
      ex.status ≠ .success ∧ ex.status ≠ .running) :
    (startReviewStep st id t).2 = .promise st.nextPromise ∧
    startReviewStep (startReviewStep st id t).1 id t' =
      ((startReviewStep st id t).1, .promise st.nextPromise) ∧
    (startReviewStep st id t).1.gitStatusCalls = st.gitStatusCalls + 1 := by
  rw [startReviewStep_fresh st id t hIn hOld]
  refine ⟨rfl, ?_, rfl⟩
  simp [startReviewStep, lookupKey_setKey_self]

/-- C3 witness: the two-call scenario run from the initial runner state. -/
theorem startReview_single_flight_witness :
    (startReviewStep RunnerState.init "ws-1" 5).2 = .promise RunnerState.init.nextPromise ∧
    startReviewStep (startReviewStep RunnerState.init "ws-1" 5).1 "ws-1" 6 =
      ((startReviewStep RunnerState.init "ws-1" 5).1,
        .promise RunnerState.init.nextPromise) ∧
    (startReviewStep RunnerState.init "ws-1" 5).1.gitStatusCalls =
      RunnerState.init.gitStatusCalls + 1 :=
  startReview_single_flight RunnerState.init "ws-1" 5 6 rfl
    (fun _ h => Option.noConfusion h)

/-- C8: a cached `success` state is final.  When the last recorded state for a
workspace is a success and nothing is in flight, `startReview` returns exactly
that cached state and the runner state is unchanged: no `running` placeholder
is stored, no work promise is created, and the VCS-status collaborator is not
invoked (a fresh review requires an explicit reset of the stored state
first). -/
theorem startReview_cached_success (st : RunnerState) (id : String) (t : Nat)
    (ex : ReviewState)
    (hIn : lookupKey st.inflight id = none)
    (hEx : lookupKey st.states id = some ex)
    (hs : ex.status = .success) :
    startReviewStep st id t = (st, .resolved ex) := by
  simp [startReviewStep, hIn, hEx, hs]

/-- C8 witness: a runner with a cached success for `ws-1` returns it as-is. -/
theorem startReview_cached_success_witness :
    startReviewStep exampleSuccessRunner "ws-1" 30 =
      (exampleSuccessRunner, .resolved exampleSuccessState) :=
  startReview_cached_success exampleSuccessRunner "ws-1" 30 exampleSuccessState
    rfl rfl rfl

/-- C7: a failing VCS-status collaborator produces a resolved terminal error
state.  Starting a review from an unblocked state and settling its work with a
failure result (`success:false` with a non-empty message, or equivalently a
thrown collaborator) leaves the workspace's stored state at status `error`
with the failure message in the `error` field, clears the in-flight entry, and
has invoked the collaborator exactly once — no retry is scheduled. -/
theorem startReview_vcs_failure (st : RunnerState) (id : String) (t tf : Nat)
    (diffOf : String → Option Diff) (res : GitStatusResult) (e : String)
    (hIn : lookupKey st.inflight id = none)
    (hOld : ∀ ex, lookupKey st.states id = some ex →
      ex.status ≠ .success ∧ ex.status ≠ .running)
    (hFail : res.success = false) (hErr : res.error = some e) (hne : e ≠ "") :
    lookupKey (settleReview (startReviewStep st id t).1 id diffOf tf res).states id =
      some { status := .error, summary := "", files := [], startedAt := t,
             finishedAt := some tf, error := some e } ∧
    lookupKey (settleReview (startReviewStep st id t).1 id diffOf tf res).inflight id =
      none ∧
    (settleReview (startReviewStep st id t).1 id diffOf tf res).gitStatusCalls =
      st.gitStatusCalls + 1 := by
  rw [startReviewStep_fresh st id t hIn hOld]
  refine ⟨?_, ?_, rfl⟩
  · simp [settleReview, lookupKey_setKey_self, runWork, hFail, gitErrorMessage,
      hErr, hne, runningState, setKey_setKey]
  · simp [settleReview, lookupKey_removeKey_self]

/-- C7 witness: scenario 3, a collaborator failure with message "boom". -/
theorem startReview_vcs_failure_witness :
    lookupKey
      (settleReview (startReviewStep RunnerState.init "ws-1" 5).1 "ws-1"
        scenarioDiff 9 { success := false, error := some "boom", changes := [] }).states
      "ws-1" =
      some { status := .error, summary := "", files := [], startedAt := 5,
             finishedAt := some 9, error := some "boom" } ∧
    lookupKey
      (settleReview (startReviewStep RunnerState.init "ws-1" 5).1 "ws-1"
        scenarioDiff 9 { success := false, error := some "boom", changes := [] }).inflight
      "ws-1" = none ∧
    (settleReview (startReviewStep RunnerState.init "ws-1" 5).1 "ws-1"
        scenarioDiff 9 { success := false, error := some "boom", changes := [] }).gitStatusCalls =
      RunnerState.init.gitStatusCalls + 1 :=
  startReview_vcs_failure RunnerState.init "ws-1" 5 9 scenarioDiff
    { success := false, error := some "boom", changes := [] } "boom" rfl
    (fun _ h => Option.noConfusion h) rfl rfl (by decide)

/-! ## Idle-settle lemmas (C6) -/

theorem getStatus_setStatus_self (st : KanbanStore) (id : String) (s : KanbanStatus) :
    getStatus (setStatus st id s) id = s := by
  simp [getStatus, setStatus, lookupKey_setKey_self]

/-- After `markDone` on a workspace with an id and a path, the store reports
`done` (the status write is unconditional once the guard passes). -/
theorem markDone_store_done (bs : BoardState) (ws : Workspace)
    (hid : ws.id ≠ "") (hpath : ws.path ≠ "") :
    getStatus (markDone bs ws).store ws.id = .done := by
  have hguard : ¬(ws.id = "" ∨ ws.path = "") := by simp [hid, hpath]
  by_cases hcur :
      (lookupKey bs.statusMapUI ws.id).getD KanbanStatus.todo = KanbanStatus.done
  · simp [markDone, hguard, hcur, autoStartReviewIfDone, getStatus_setStatus_self]
  · simp [markDone, hguard, hcur, autoStartReviewIfDone, getStatus_setStatus_self]

/-- The busy handler leaves the React status map reporting `in-progress`. -/
theorem promoteBusy_ui (bs : BoardState) (id : String) :
    lookupKey (promoteBusy bs id).statusMapUI id = some .inProgress := by
  by_cases h : lookupKey bs.statusMapUI id = some KanbanStatus.inProgress
  · simp [promoteBusy, h]
  · simp [promoteBusy, h, lookupKey_setKey_self]

/-- The busy handler leaves the store reporting `in-progress`, provided the
React status map and the store agreed on this workspace beforehand. -/
theorem promoteBusy_store (bs : BoardState) (id : String)
    (hcons : lookupKey bs.statusMapUI id = lookupKey bs.store.statusMap id) :
    getStatus (promoteBusy bs id).store id = .inProgress := by
  by_cases h : lookupKey bs.statusMapUI id = some KanbanStatus.inProgress
  · have hs : lookupKey bs.store.statusMap id = some KanbanStatus.inProgress :=
      hcons ▸ h
    simp [promoteBusy, h, getStatus, hs]
  · simp [promoteBusy, h, getStatus_setStatus_self]

/-- A second busy promotion is a no-op once the React map says `in-progress`. -/
theorem promoteBusy_noop (bs : BoardState) (id : String)
    (h : lookupKey bs.statusMapUI id = some .inProgress) :
    promoteBusy bs id = bs := by
  simp [promoteBusy, h]

/-! ## C6 — idle-settle policy -/

/-- C6: a workspace that reports busy and is thereby active (`in-progress`)
and then reports idle gets a 10-second grace timer; if no further signal
arrives and the timer comes due (at or before `tEnd`), the workspace
transitions to ready-for-review (`done`); if instead a busy signal arrives
9 seconds into the grace window, the timer is cancelled and no transition
happens — the workspace is still `in-progress` at `tEnd`.  The consistency
hypothesis says the component's React status map and the store agree on this
workspace, which holds throughout the component's lifetime because every
mutation writes both. -/
theorem idle_settle_policy (ws : Workspace) (st0 : AggState) (t0 t1 tEnd : Nat)
    (hid : ws.id ≠ "") (hpath : ws.path ≠ "")
    (htimer : st0.timer = none)
    (hcons : lookupKey st0.board.statusMapUI ws.id =
      lookupKey st0.board.store.statusMap ws.id)
    (_h01 : t0 ≤ t1) (hEnd : t1 + 10000 ≤ tEnd) :
    getStatus (runSignals ws st0 [(t0, true), (t1, false)] tEnd).board.store ws.id
      = .done ∧
    getStatus
      (runSignals ws st0 [(t0, true), (t1, false), (t1 + 9000, true)] tEnd).board.store
      ws.id = .inProgress := by
  have hPB := promoteBusy_store st0.board ws.id hcons
  have hPBui := promoteBusy_ui st0.board ws.id
  have s1 : activitySignal ws st0 t0 true =
      { board := promoteBusy st0.board ws.id, timer := none } := by
    simp [activitySignal, fireDue, htimer]
  have s2 : activitySignal ws { board := promoteBusy st0.board ws.id, timer := none }
      t1 false =
      { board := promoteBusy st0.board ws.id, timer := some (t1 + 10000) } := by
    simp [activitySignal, fireDue]
  constructor
  · rw [runSignals, s1, runSignals, s2, runSignals]
    unfold fireDue
    simp only []
    rw [if_pos hEnd, if_pos hPB]
    exact markDone_store_done _ ws hid hpath
  · have hlt : ¬ (t1 + 10000 ≤ t1 + 9000) := by omega
    have s3 : activitySignal ws
        { board := promoteBusy st0.board ws.id, timer := some (t1 + 10000) }
        (t1 + 9000) true =
        { board := promoteBusy st0.board ws.id, timer := none } := by
      simp [activitySignal, fireDue, hlt, promoteBusy_noop _ _ hPBui]
    rw [runSignals, s1, runSignals, s2, runSignals, s3, runSignals]
    simpa [fireDue] using hPB

/-- C6 witness: busy at 0, idle at 1000, quiet until 11000 reaches `done`;
with an extra busy signal at 10000 (9 seconds into the window) the workspace
is still `in-progress` at 11000. -/
theorem idle_settle_policy_witness :
    getStatus
      (runSignals exampleWorkspace { board := exampleBoard, timer := none }
        [(0, true), (1000, false)] 11000).board.store "ws-1" = .done ∧
    getStatus
      (runSignals exampleWorkspace { board := exampleBoard, timer := none }
        [(0, true), (1000, false), (1000 + 9000, true)] 11000).board.store "ws-1"
      = .inProgress :=
  idle_settle_policy exampleWorkspace { board := exampleBoard, timer := none }
    0 1000 11000 (by decide) (by decide) rfl rfl (by decide) (by decide)

/-! ## Substring lemmas (C9) -/

theorem startsList_self_append (p r : List Char) : startsList p (p ++ r) = true := by
  induction p with
  | nil => simp [startsList]
  | cons a as ih => simp [startsList, ih]

/-- A string contains any contiguous block of its character list. -/
theorem containsSub_of_parts (s pat : String) (a b : List Char)
    (h : s.toList = a ++ (pat.toList ++ b)) : containsSub s pat = true := by
  unfold containsSub
  rw [List.any_eq_true]
  refine ⟨a.length, List.mem_range.mpr ?_, ?_⟩
  · rw [h]
    simp [List.length_append]
    omega
  · rw [h, List.drop_left, startsList_self_append]

/-! ## C9 — review summary contents -/

/-- C9: for every successful review with a non-empty filtered change set, the
summary string contains the file count, the aggregate added-line count
prefixed by a plus sign, and the aggregate deleted-line count prefixed by a
minus sign; in scenario 1 (two files, +5 minus 2 and +10 minus 0) the resolved
state is a success with 2 files whose summary contains "2 files", "+15" and
"-2"; and in scenario 2 (empty change set) the state is a success whose
summary is the no-local-changes message. -/
theorem review_summary_reporting :
    (∀ files : List ReviewFile, files ≠ [] →
      containsSub (summaryFor files) (toString files.length) = true ∧
      containsSub (summaryFor files) ("+" ++ toString (totalAdds files)) = true ∧
      containsSub (summaryFor files) ("-" ++ toString (totalDels files)) = true) ∧
    (runWork scenarioDiff 100 200 scenarioTwoFiles).status = .success ∧
    (runWork scenarioDiff 100 200 scenarioTwoFiles).files.length = 2 ∧
    containsSub (runWork scenarioDiff 100 200 scenarioTwoFiles).summary "2 files"
      = true ∧
    containsSub (runWork scenarioDiff 100 200 scenarioTwoFiles).summary "+15"
      = true ∧
    containsSub (runWork scenarioDiff 100 200 scenarioTwoFiles).summary "-2"
      = true ∧
    (runWork scenarioDiff 100 200 scenarioEmpty).status = .success ∧
    (runWork scenarioDiff 100 200 scenarioEmpty).summary
      = "No local changes to review." ∧
    containsSub (runWork scenarioDiff 100 200 scenarioEmpty).summary
      "No local changes" = true := by
  refine ⟨?_, by decide, by decide, by decide, by decide, by decide, by decide,
    by decide, by decide⟩
  intro files hne
  have hpos : 0 < files.length := List.length_pos.mpr hne
  have hif : summaryFor files =
      toString files.length ++ " file" ++
        (if files.length = 1 then "" else "s") ++ " changed (+" ++
        toString (totalAdds files) ++ " / -" ++ toString (totalDels files) ++
        ")" := by
    unfold summaryFor
    rw [if_pos hpos]
  rw [hif]
  refine ⟨?_, ?_, ?_⟩
  · apply containsSub_of_parts _ _ []
      ((" file" ++ (if files.length = 1 then "" else "s") ++ " changed (+" ++
        toString (totalAdds files) ++ " / -" ++ toString (totalDels files) ++
        ")").toList)
    simp [String.toList, List.append_assoc]
  · have hsplit : " changed (+".toList = " changed (".toList ++ "+".toList := by
      decide
    apply containsSub_of_parts _ _
      ((toString files.length ++ " file" ++
        (if files.length = 1 then "" else "s") ++ " changed (").toList)
      ((" / -" ++ toString (totalDels files) ++ ")").toList)
    simp [String.toList, hsplit, List.append_assoc]
  · have hsplit : " / -".toList = " / ".toList ++ "-".toList := by decide
    apply containsSub_of_parts _ _
      ((toString files.length ++ " file" ++
        (if files.length = 1 then "" else "s") ++ " changed (+" ++
        toString (totalAdds files) ++ " / ").toList)
      (")".toList)
    simp [String.toList, hsplit, List.append_assoc]

/-- C9 witness: the general summary conjunct instantiated at a one-file list
with +4 and -7. -/
theorem review_summary_reporting_witness :
    containsSub (summaryFor [exampleReviewFile])
      (toString ([exampleReviewFile] : List ReviewFile).length) = true ∧
    containsSub (summaryFor [exampleReviewFile])
      ("+" ++ toString (totalAdds [exampleReviewFile])) = true ∧
    containsSub (summaryFor [exampleReviewFile])
      ("-" ++ toString (totalDels [exampleReviewFile])) = true :=
  review_summary_reporting.1 [exampleReviewFile] (by decide)

/-! ## Rehydration lemmas (C10) -/

/-- Every tab produced by the load mapping has no `isReview` field. -/
theorem loadTab_isReview (now : Nat) (item : RawStoredTab) (t : ProviderTab)
    (h : loadTab now item = some t) : t.isReview = none := by
  by_cases hv : isValidProviderId (normalizeProvider (item.provider.getD "") "codex")
  · simp [loadTab, hv] at h
    subst h
    rfl
  · simp [loadTab, hv] at h

/-- The load dedup pass only keeps tabs of its input. -/
theorem dedupeLoadTabs_sub (t : ProviderTab) :
    ∀ (l : List ProviderTab) (seen : List (String × Bool)),
      t ∈ dedupeLoadTabs seen l → t ∈ l := by
  intro l
  induction l with
  | nil => intro seen h; simp [dedupeLoadTabs] at h
  | cons a as ih =>
      intro seen h
      by_cases hm : tabKey a ∈ seen
      · simp only [dedupeLoadTabs, if_pos hm] at h
        exact List.mem_cons_of_mem a (ih seen h)
      · simp only [dedupeLoadTabs, if_neg hm, List.mem_cons] at h
        rcases h with h | h
        · exact h ▸ List.mem_cons_self a as
        · exact List.mem_cons_of_mem a (ih _ h)

/-! ## C10 — rehydration drops the review flag -/

/-- C10: whatever tab collection was persisted, every tab in a successfully
rehydrated state has an absent `isReview` field — a persisted review surface
comes back as an ordinary surface — and consequently `getReviewTab` returns
none immediately after rehydration. -/
theorem loadFromStorage_drops_review_flag (raw : Option RawStoredState) (now : Nat)
    (st : TabsState) (h : loadFromStorage raw now = some st) :
    (∀ t ∈ st.tabs, t.isReview = none) ∧ getReviewTab st = none := by
  have htabs : ∀ t ∈ st.tabs, t.isReview = none := by
    rcases raw with _ | parsed
    · simp [loadFromStorage] at h
    · rcases hpt : parsed.tabs with _ | items
      · simp [loadFromStorage, hpt, dedupeLoadTabs] at h
      · have hnone : ∀ u ∈ (items.map (loadTab now)).reduceOption,
            u.isReview = none := by
          intro u hu
          rw [List.reduceOption_mem_iff] at hu
          rcases List.mem_map.mp hu with ⟨item, _, heq⟩
          exact loadTab_isReview now item u heq
        rcases hd : dedupeLoadTabs [] ((items.map (loadTab now)).reduceOption)
          with _ | ⟨t0, rest⟩
        · simp [loadFromStorage, hpt, hd] at h
        · simp only [loadFromStorage, hpt] at h
          rw [hd] at h
          rcases st with ⟨stTabs, stActive⟩
          simp only [Option.some.injEq, TabsState.mk.injEq] at h
          intro t ht
          have hmem : t ∈ dedupeLoadTabs []
              ((items.map (loadTab now)).reduceOption) := by
            rw [hd, h.1]
            exact ht
          exact hnone t (dedupeLoadTabs_sub t _ _ hmem)
  refine ⟨htabs, ?_⟩
  unfold getReviewTab
  apply List.find?_eq_none.mpr
  intro t ht
  simp [isRev, htabs t ht]

/-- C10 witness: a persisted state containing a review surface rehydrates with
both tabs ordinary and no review tab. -/
theorem loadFromStorage_drops_review_flag_witness :
    (∀ t ∈ exampleLoadedTabs.tabs, t.isReview = none) ∧
    getReviewTab exampleLoadedTabs = none :=
  loadFromStorage_drops_review_flag (some exampleRawStored) 7 exampleLoadedTabs
    (by decide)

/-! ## Tab registry lemmas (C4) -/

/-- The validity-and-dedup pass emits pairwise-distinct composite keys, none
of which was already seen. -/
theorem dedupeValidTabs_spec :
    ∀ (l : List ProviderTab) (seen : List (String × Bool)),
      ((dedupeValidTabs seen l).map tabKey).Nodup ∧
      ∀ k ∈ (dedupeValidTabs seen l).map tabKey, k ∉ seen := by
  intro l
  induction l with
  | nil => intro seen; simp [dedupeValidTabs]
  | cons t ts ih =>
      intro seen
      by_cases hv : isValidProviderId t.provider
      · by_cases hm : tabKey t ∈ seen
        · simpa [dedupeValidTabs, hv, hm] using ih seen
        · simp only [dedupeValidTabs, hv, Bool.not_true, Bool.false_eq_true,
            if_false, if_neg hm]
          obtain ⟨ihn, ihs⟩ := ih (tabKey t :: seen)
          refine ⟨?_, ?_⟩
          · rw [List.map_cons, List.nodup_cons]
            refine ⟨fun hmem => ?_, ihn⟩
            exact (ihs _ hmem) (List.mem_cons_self _ _)
          · intro k hk
            rw [List.map_cons, List.mem_cons] at hk
            rcases hk with rfl | hk
            · exact hm
            · exact fun hks => (ihs k hk) (List.mem_cons_of_mem _ hks)
      · simpa [dedupeValidTabs, hv] using ih seen

/-- The default single-tab state satisfies the registry invariant. -/
theorem createDefaultState_invariant (fallback : String) (now : Nat) :
    tabsInvariant (createDefaultState fallback now) := by
  refine ⟨by simp [createDefaultState], by simp [createDefaultState],
    ⟨normalizeProvider fallback "codex", by simp [createDefaultState], ?_⟩⟩
  simp [createDefaultState]

/-- The commit step establishes the registry invariant whenever the committed
list has pairwise-distinct composite keys. -/
theorem commitTabs_invariant (fallback : String) (now : Nat)
    (draftActive : Option String) (l : List ProviderTab)
    (hnodup : (l.map tabKey).Nodup) :
    tabsInvariant (commitTabs fallback now draftActive l) := by
  cases l with
  | nil => exact createDefaultState_invariant fallback now
  | cons t0 rest =>
      cases draftActive with
      | none =>
          refine ⟨by simp [commitTabs], by simpa [commitTabs] using hnodup,
            ⟨t0.id, by simp [commitTabs], ?_⟩⟩
          simp [commitTabs]
      | some a =>
          by_cases hany : (t0 :: rest).any (fun t => t.id = a) = true
          · refine ⟨by simp [commitTabs, hany], ?_, ⟨a, ?_, ?_⟩⟩
            · simpa [commitTabs, hany] using hnodup
            · simp [commitTabs, hany]
            · simp [commitTabs, hany]
          · refine ⟨by simp [commitTabs, hany], ?_, ⟨t0.id, ?_, ?_⟩⟩
            · simpa [commitTabs, hany] using hnodup
            · simp [commitTabs, hany]
            · simp [commitTabs, hany]

/-- Every committed mutation re-establishes the registry invariant, whatever
the mutation did to the draft. -/
theorem updateWorkspaceState_invariant (fallback : String) (now : Nat)
    (st : TabsState) (mutate : TabsState → TabsState) :
    tabsInvariant (updateWorkspaceState fallback now st mutate) := by
  have hs := (dedupeValidTabs_spec
    ((mutate st).tabs.map fun t =>
      { t with provider := normalizeProvider t.provider fallback }) []).1
  exact commitTabs_invariant fallback now (mutate st).activeId _ hs

/-- Each of the three registry calls preserves the invariant. -/
theorem applyTabOp_invariant (fallback : String) (now : Nat) (st : TabsState)
    (op : TabOp) (hinv : tabsInvariant st) :
    tabsInvariant (applyTabOp fallback now st op) := by
  cases op with
  | openSurface p =>
      by_cases hv : isValidProviderId p
      · simp only [applyTabOp, addTab, hv, Bool.not_true, Bool.false_eq_true,
          if_false]
        exact updateWorkspaceState_invariant fallback now st _
      · simpa [applyTabOp, addTab, hv] using hinv
  | openReviewSurface p =>
      by_cases hv : isValidProviderId p
      · simp only [applyTabOp, addReviewTab, hv, Bool.not_true,
          Bool.false_eq_true, if_false]
        exact updateWorkspaceState_invariant fallback now st _
      · simpa [applyTabOp, addReviewTab, hv] using hinv
  | closeSurface tabId =>
      by_cases hlen : st.tabs.length ≤ 1
      · simpa [applyTabOp, closeTab, hlen] using hinv
      · rcases hidx : st.tabs.findIdx? (fun t => t.id = tabId) with _ | idx
        · simpa [applyTabOp, closeTab, hlen, hidx] using hinv
        · simp only [applyTabOp, closeTab, hlen, hidx, if_false]
          exact updateWorkspaceState_invariant fallback now st _

/-! ## C4 — tab registry invariant -/

/-- C4: starting from any state satisfying the registry invariant (such as the
default state a workspace is created with), any finite sequence of
`openProviderTab`, `openReviewTab` and `closeTab` calls leaves the collection
non-empty, free of duplicate `(provider, isReview)` pairs, and with `activeId`
referring to a member of the collection. -/
theorem tab_registry_invariant (fallback : String) (now : Nat) (st : TabsState)
    (ops : List TabOp) (hinv : tabsInvariant st) :
    tabsInvariant (applyTabOps fallback now st ops) := by
  induction ops generalizing st with
  | nil => simpa [applyTabOps] using hinv
  | cons op rest ih =>
      simp only [applyTabOps, List.foldl_cons]
      have h1 := applyTabOp_invariant fallback now st op hinv
      have h2 := ih (applyTabOp fallback now st op) h1
      simpa [applyTabOps] using h2

/-- C4 witness: the invariant after a concrete call sequence that opens a
second surface, opens a review surface and closes the original surface. -/
theorem tab_registry_invariant_witness :
    tabsInvariant (applyTabOps "codex" 0 (createDefaultState "codex" 0)
      [.openSurface "claude", .openReviewSurface "claude",
       .closeSurface "codex"]) :=
  tab_registry_invariant "codex" 0 (createDefaultState "codex" 0)
    [.openSurface "claude", .openReviewSurface "claude", .closeSurface "codex"]
    (createDefaultState_invariant "codex" 0)
